import Mathlib

set_option linter.unusedVariables false

/-!
Shallow embedding of the openshift-pipelines/secret-syncer reconciler
(pkg/reconciler/reconciler.go and pkg/reconciler/controller.go).

The reconciler copies a git-auth secret from the hub cluster to the spoke
cluster where a PipelineRun executes.  Remote Kubernetes API calls are
modelled as functions supplied in a `ReconcilerEnv` record (the Go code
likewise receives its clients as struct fields or parameters); the spoke
cluster secret store is threaded through as an explicit state parameter
of type `sigma`, and the calls the reconciler makes are recorded in an
`Effect` trace so that the absence of cross-cluster work is expressible.
-/

namespace SecretSyncer

/-- Byte strings (Go `[]byte`) as lists of byte values. -/
abbrev Bytes := List Nat

/-- The status-reason classification of a Kubernetes API error, as far as
this code observes it via `errors.IsNotFound`, `errors.IsAlreadyExists`
and the like. -/
inductive ErrKind where
  | notFound
  | alreadyExists
  | forbidden
  | other
deriving DecidableEq, Repr

/-- A Go error value as this code observes it: a message string plus the
Kubernetes status reason used by the `errors.IsX` predicates. -/
structure KubeErr where
  kind : ErrKind
  msg : String
deriving DecidableEq, Repr

/-- `k8s.io/apimachinery errors.IsNotFound`. -/
def KubeErr.isNotFound (e : KubeErr) : Bool := e.kind == ErrKind.notFound

/-- `k8s.io/apimachinery errors.IsAlreadyExists`. -/
def KubeErr.isAlreadyExists (e : KubeErr) : Bool := e.kind == ErrKind.alreadyExists

/-- `fmt.Errorf("%s: %w", ctxMsg, e)`: wraps with context; the status
reason stays observable through unwrapping. -/
def wrapErr (ctxMsg : String) (e : KubeErr) : KubeErr :=
  { kind := e.kind, msg := ctxMsg ++ ": " ++ e.msg }

/-- `metav1.OwnerReference`. -/
structure OwnerReference where
  apiVersion : String
  kind : String
  name : String
  uid : String
  controller : Option Bool
  blockOwnerDeletion : Option Bool
deriving DecidableEq, Repr

/-- The object metadata fields this code reads or writes
(`metav1.ObjectMeta`); `ns` is the Namespace field. -/
structure ObjectMeta where
  name : String
  ns : String
  uid : String
  labels : List (String × String)
  annotations : List (String × String)
  ownerReferences : List OwnerReference
deriving DecidableEq, Repr

/-- `corev1.Secret` restricted to the fields this code touches. -/
structure Secret where
  metadata : ObjectMeta
  type : String
  data : List (String × Bytes)
deriving DecidableEq, Repr

/-- A Tekton `v1.PipelineRun` as this code observes it: metadata plus the
`IsDone()` status predicate, modelled as the boolean field `done`
(the predicate is computed by the Tekton library from status conditions,
outside this repository). -/
structure PipelineRun where
  metadata : ObjectMeta
  done : Bool
deriving DecidableEq, Repr

/-- `kueuev1beta1.WorkloadSpec` restricted to the `Active` field. -/
structure WorkloadSpec where
  active : Option Bool
deriving DecidableEq, Repr

/-- `kueuev1beta1.WorkloadStatus` restricted to the `ClusterName` field. -/
structure WorkloadStatus where
  clusterName : Option String
deriving DecidableEq, Repr

/-- A Kueue `Workload`. -/
structure Workload where
  metadata : ObjectMeta
  spec : WorkloadSpec
  status : WorkloadStatus
deriving DecidableEq, Repr

/-- `kueuev1beta1.KubeConfig`: the credential locator of a cluster
registration. -/
structure KubeConfig where
  locationType : String
  location : String
deriving DecidableEq, Repr

/-- `kueuev1beta1.MultiKueueClusterSpec`. -/
structure MultiKueueClusterSpec where
  kubeConfig : KubeConfig
deriving DecidableEq, Repr

/-- A `MultiKueueCluster` registration object. -/
structure MultiKueueCluster where
  name : String
  spec : MultiKueueClusterSpec
deriving DecidableEq, Repr

/-- A `rest.Config`: the resolved connection descriptor for a cluster. -/
structure RestConfig where
  host : String
deriving DecidableEq, Repr

/-- Go map lookup `m[k]` on an association list (keys are unique in a Go
map; the first binding wins). -/
def lookupKV {α : Type} (l : List (String × α)) (k : String) : Option α :=
  (l.find? (fun p => p.1 == k)).map (fun p => p.2)

/-- `metav1.GetControllerOf`: the first owner reference whose
`Controller` field is non-nil and true. -/
def getControllerOf (m : ObjectMeta) : Option OwnerReference :=
  m.ownerReferences.find? (fun r => r.controller == some true)

/-- `strings.Split` on the slash separator, written structurally over the
character list so that it evaluates inside the kernel. -/
def splitOnSlash (cs : List Char) : List (List Char) :=
  match cs with
  | [] => [[]]
  | c :: rest =>
    let r := splitOnSlash rest
    if c = '/' then [] :: r
    else
      match r with
      | [] => [[c]]
      | h :: t => (c :: h) :: t

/-- `cache.SplitMetaNamespaceKey`: splits a queue key into namespace and
name; a key with more than one slash is an error. -/
def splitMetaNamespaceKey (key : String) : Except KubeErr (String × String) :=
  match (splitOnSlash key.data).map (fun l => String.mk l) with
  | [name] => Except.ok ("", name)
  | [ns, name] => Except.ok (ns, name)
  | _ => Except.error { kind := ErrKind.other, msg := "unexpected key format: " ++ key }

/-- The annotation key constant `pipelinesascode.tekton.dev/git-auth-secret`
(`groupName + "/git-auth-secret"`). -/
def gitAuthSecret : String := "pipelinesascode.tekton.dev" ++ "/git-auth-secret"

/-- A record of one remote call the reconciler performed, used to state
that a gated exit performs no cross-cluster work. -/
inductive Effect where
  | resolveCluster (clusterName : String)
  | fetchPipelineRun (ns name : String)
  | fetchHubSecret (ns name : String)
  | createSecret (ns name : String)
deriving DecidableEq, Repr

/-- The reconciler environment: the hub and Kueue clients held on the
`Reconciler` struct, the spoke clients constructed per reconciliation
from the resolved `RestConfig`, and the external library entry points
(`clientcmd`, client constructors).  `sigma` is the state of the spoke
cluster secret store threaded through create calls. -/
structure ReconcilerEnv (sigma : Type) where
  kueueNamespace : String
  getWorkload : String → String → Except KubeErr Workload
  getMKCluster : String → Except KubeErr MultiKueueCluster
  hubGetSecret : String → String → Except KubeErr Secret
  restConfigFromKubeConfig : Bytes → Except KubeErr RestConfig
  buildConfigFromFlags : String → Except KubeErr RestConfig
  newKubeClient : RestConfig → Option KubeErr
  newTektonClient : RestConfig → Option KubeErr
  spokeGetPipelineRun : RestConfig → String → String → Except KubeErr PipelineRun
  spokeCreateSecret : RestConfig → String → Secret → sigma → sigma × Option KubeErr

/-- `getSpokeClusterConfig` (reconciler.go lines 220 to 246): look up the
MultiKueueCluster registration and resolve its kubeconfig location into a
REST config. -/
def getSpokeClusterConfig {sigma : Type} (env : ReconcilerEnv sigma)
    (clusterName : String) : Except KubeErr RestConfig :=
  match env.getMKCluster clusterName with
  | Except.error e =>
      Except.error (wrapErr ("could not find MultiKueueCluster " ++ clusterName) e)
  | Except.ok mkCluster =>
      let kubeConfig := mkCluster.spec.kubeConfig
      if kubeConfig.locationType = "Secret" then
        match env.hubGetSecret env.kueueNamespace kubeConfig.location with
        | Except.error e =>
            Except.error (wrapErr ("could not get kubeconfig secret " ++
              env.kueueNamespace ++ "/" ++ kubeConfig.location) e)
        | Except.ok kubeconfigSecret =>
            match lookupKV kubeconfigSecret.data "kubeconfig" with
            | none =>
                Except.error
                  { kind := ErrKind.other,
                    msg := ("kubeconfig secret " ++ env.kueueNamespace ++ "/" ++
                      kubeConfig.location ++ " is missing \x27kubeconfig\x27 data key") }
            | some kubeconfigBytes => env.restConfigFromKubeConfig kubeconfigBytes
      else if kubeConfig.locationType = "Path" then
        env.buildConfigFromFlags kubeConfig.location
      else
        Except.error
          { kind := ErrKind.other,
            msg := ("unsupported kubeconfig location type: " ++ kubeConfig.locationType) }

/-- `validatePLRAndGetSecretName` (reconciler.go lines 149 to 176): fetch
the PipelineRun on the spoke cluster; not-found, done, and
missing-annotation all yield an empty secret name with no error. -/
def validatePLRAndGetSecretName {sigma : Type} (env : ReconcilerEnv sigma)
    (cfg : RestConfig) (plrName plrNamespace clusterName : String) :
    (String × Option PipelineRun × Option KubeErr) × List Effect :=
  let effs := [Effect.fetchPipelineRun plrNamespace plrName]
  match env.spokeGetPipelineRun cfg plrNamespace plrName with
  | Except.error e =>
      if e.isNotFound then (("", none, none), effs)
      else (("", none, some e), effs)
  | Except.ok pipelineRun =>
      if pipelineRun.done then (("", none, none), effs)
      else
        match lookupKV pipelineRun.metadata.annotations gitAuthSecret with
        | none => (("", none, none), effs)
        | some secretName => ((secretName, some pipelineRun, none), effs)

/-- The ProjectedSecret construction (reconciler.go lines 188 to 207): a
new secret with only name, namespace, labels, annotations, type and data
copied; when the source has owner references they are copied with only
the UID overridden to the spoke PipelineRun UID. -/
def buildProjectedSecret (secret : Secret) (pipelineRun : PipelineRun) : Secret :=
  let newSecret : Secret :=
    { metadata :=
        { name := secret.metadata.name
          ns := secret.metadata.ns
          uid := ""
          labels := secret.metadata.labels
          annotations := secret.metadata.annotations
          ownerReferences := [] }
      type := secret.type
      data := secret.data }
  if secret.metadata.ownerReferences.length > 0 then
    { newSecret with metadata :=
        { newSecret.metadata with ownerReferences :=
            (secret.metadata.ownerReferences.map
              (fun ref => { ref with uid := pipelineRun.metadata.uid })) } }
  else newSecret

/-- `createSecretOnSpokeCluster` (reconciler.go lines 178 to 217): fetch
the source secret from the hub, build the projected secret, create it on
the spoke cluster, and treat an already-exists failure as success. -/
def createSecretOnSpokeCluster {sigma : Type} (env : ReconcilerEnv sigma)
    (cfg : RestConfig) (secretName clusterName : String)
    (pipelineRun : PipelineRun) (s : sigma) :
    (sigma × Option KubeErr) × List Effect :=
  match env.hubGetSecret pipelineRun.metadata.ns secretName with
  | Except.error e =>
      ((s, some e), [Effect.fetchHubSecret pipelineRun.metadata.ns secretName])
  | Except.ok secret =>
      let newSecret := buildProjectedSecret secret pipelineRun
      let res := env.spokeCreateSecret cfg newSecret.metadata.ns newSecret s
      let effs := [Effect.fetchHubSecret pipelineRun.metadata.ns secretName,
                   Effect.createSecret newSecret.metadata.ns newSecret.metadata.name]
      match res.2 with
      | some e => if e.isAlreadyExists then ((res.1, none), effs) else ((res.1, some e), effs)
      | none => ((res.1, none), effs)

/-- The error a Go nil-pointer dereference would raise if `Reconcile`
reached the secret sync step without a PipelineRun; unreachable given
`validatePLRAndGetSecretName`, which pairs a non-empty secret name with a
present PipelineRun. -/
def nilPipelineRunErr : KubeErr :=
  { kind := ErrKind.other, msg := "invalid memory address or nil pointer dereference" }

/-- `Reconcile` (reconciler.go lines 60 to 147): parse the key, fetch the
Workload, apply the gates, resolve the spoke cluster config, construct
spoke clients, validate the PipelineRun and sync the secret. -/
def Reconcile {sigma : Type} (env : ReconcilerEnv sigma) (key : String) (s : sigma) :
    (sigma × Option KubeErr) × List Effect :=
  match splitMetaNamespaceKey key with
  | Except.error _ => ((s, none), [])
  | Except.ok (ns, name) =>
    match env.getWorkload ns name with
    | Except.error e =>
        if e.isNotFound then ((s, none), []) else ((s, some e), [])
    | Except.ok workload =>
      if workload.spec.active == some false then ((s, none), [])
      else
        match workload.status.clusterName with
        | none => ((s, none), [])
        | some clusterName =>
          if clusterName = "" then ((s, none), [])
          else
            match getControllerOf workload.metadata with
            | none => ((s, none), [])
            | some ownerPipelineRunReference =>
              if ownerPipelineRunReference.kind ≠ "PipelineRun" then ((s, none), [])
              else
                let effs0 := [Effect.resolveCluster clusterName]
                match getSpokeClusterConfig env clusterName with
                | Except.error e => ((s, some e), effs0)
                | Except.ok spokeClusterConfig =>
                  match env.newKubeClient spokeClusterConfig with
                  | some e => ((s, some e), effs0)
                  | none =>
                    match env.newTektonClient spokeClusterConfig with
                    | some e => ((s, some e), effs0)
                    | none =>
                      let v := validatePLRAndGetSecretName env spokeClusterConfig
                        ownerPipelineRunReference.name workload.metadata.ns clusterName
                      let effs1 := effs0 ++ v.2
                      match v.1 with
                      | (_, _, some e) => ((s, some e), effs1)
                      | (secretName, optPLR, none) =>
                        if secretName = "" then ((s, none), effs1)
                        else
                          match optPLR with
                          | none => ((s, some nilPipelineRunErr), effs1)
                          | some pipelineRun =>
                            let c := createSecretOnSpokeCluster env spokeClusterConfig
                              secretName clusterName pipelineRun s
                            (c.1, effs1 ++ c.2)

/-- `checkOwnerAndEnqueue` (controller.go lines 69 to 85) reduced to its
enqueue decision: a Workload is enqueued when any of its owner references
(controlling or not) has kind PipelineRun. -/
def checkOwnerAndEnqueue (m : ObjectMeta) : Bool :=
  m.ownerReferences.any (fun r => r.kind == "PipelineRun")

/-- Does a stored secret carry the given namespace and name identity? -/
def hasIdentity (ns name : String) (t : Secret) : Bool :=
  t.metadata.ns == ns && t.metadata.name == name

/-- The Kubernetes API server semantics of `Secrets(ns).Create`: reject
with an already-exists error when a secret with the same namespace and
name is stored, otherwise append the new secret. -/
def storeCreateSecret (ns : String) (sec : Secret) (store : List Secret) :
    List Secret × Option KubeErr :=
  if store.any (hasIdentity ns sec.metadata.name) then
    (store, some { kind := ErrKind.alreadyExists,
                   msg := "secrets \"" ++ sec.metadata.name ++ "\" already exists" })
  else (store ++ [sec], none)

/-! ## Concrete fixtures used by closed witnesses -/

/-- A not-found error value, as returned by the fake clients. -/
def errNotFound : KubeErr := { kind := ErrKind.notFound, msg := "not found" }

/-- A forbidden error value. -/
def errForbidden : KubeErr := { kind := ErrKind.forbidden, msg := "forbidden" }

/-- An environment in which every remote lookup fails with not-found and
the spoke create is a no-op; witnesses override individual fields. -/
def emptyEnv : ReconcilerEnv Unit :=
  { kueueNamespace := "kueue-system"
    getWorkload := fun _ _ => Except.error errNotFound
    getMKCluster := fun _ => Except.error errNotFound
    hubGetSecret := fun _ _ => Except.error errNotFound
    restConfigFromKubeConfig := fun _ => Except.error errNotFound
    buildConfigFromFlags := fun _ => Except.error errNotFound
    newKubeClient := fun _ => none
    newTektonClient := fun _ => none
    spokeGetPipelineRun := fun _ _ _ => Except.error errNotFound
    spokeCreateSecret := fun _ _ _ u => (u, none) }

/-- Empty object metadata (Go zero value). -/
def emptyMeta : ObjectMeta :=
  { name := "", ns := "", uid := "", labels := [], annotations := [], ownerReferences := [] }

/-! ## Claims -/

/-- C2: the ProjectedSecret built by the Secret Syncer has name,
namespace, labels, annotations, type and data equal to the source
secret, and its owner references are the source references with only the
UID field replaced by the spoke PipelineRun UID, every other field of
each reference unchanged. -/
theorem c2_projected_secret_fields (secret : Secret) (pipelineRun : PipelineRun) :
    (buildProjectedSecret secret pipelineRun).metadata.name = secret.metadata.name ∧
    (buildProjectedSecret secret pipelineRun).metadata.ns = secret.metadata.ns ∧
    (buildProjectedSecret secret pipelineRun).metadata.labels = secret.metadata.labels ∧
    (buildProjectedSecret secret pipelineRun).metadata.annotations = secret.metadata.annotations ∧
    (buildProjectedSecret secret pipelineRun).type = secret.type ∧
    (buildProjectedSecret secret pipelineRun).data = secret.data ∧
    (buildProjectedSecret secret pipelineRun).metadata.ownerReferences =
      secret.metadata.ownerReferences.map
        (fun ref => { ref with uid := pipelineRun.metadata.uid }) ∧
    (∀ ref : OwnerReference,
      ({ ref with uid := pipelineRun.metadata.uid } : OwnerReference).apiVersion = ref.apiVersion ∧
      ({ ref with uid := pipelineRun.metadata.uid } : OwnerReference).kind = ref.kind ∧
      ({ ref with uid := pipelineRun.metadata.uid } : OwnerReference).name = ref.name ∧
      ({ ref with uid := pipelineRun.metadata.uid } : OwnerReference).controller = ref.controller ∧
      ({ ref with uid := pipelineRun.metadata.uid } : OwnerReference).blockOwnerDeletion =
        ref.blockOwnerDeletion ∧
      ({ ref with uid := pipelineRun.metadata.uid } : OwnerReference).uid =
        pipelineRun.metadata.uid) := by
  unfold buildProjectedSecret
  rcases secret with ⟨⟨n, ns, u, lb, an, refs⟩, ty, da⟩
  cases refs <;> simp

/-- C4: a PipelineRun fetch failing with not-found yields an empty secret
name, an absent PipelineRun and no error, while any other fetch failure
is returned as that error. -/
theorem c4_plr_fetch_error {sigma : Type} (env : ReconcilerEnv sigma) (cfg : RestConfig)
    (plrName plrNamespace clusterName : String) (e : KubeErr)
    (herr : env.spokeGetPipelineRun cfg plrNamespace plrName = Except.error e) :
    (validatePLRAndGetSecretName env cfg plrName plrNamespace clusterName).1 =
      (if e.isNotFound then ("", none, none) else ("", none, some e)) := by
  unfold validatePLRAndGetSecretName
  rw [herr]
  cases h : e.isNotFound <;> simp [h]

/-- Witness for C4 at a not-found error and at a forbidden error. -/
theorem c4_plr_fetch_error_witness :
    (validatePLRAndGetSecretName emptyEnv { host := "h" } "plr-1" "ns" "cluster-a").1 =
      ("", none, none) ∧
    (validatePLRAndGetSecretName
        { emptyEnv with spokeGetPipelineRun := fun _ _ _ => Except.error errForbidden }
        { host := "h" } "plr-1" "ns" "cluster-a").1 =
      ("", none, some errForbidden) :=
  ⟨(c4_plr_fetch_error emptyEnv { host := "h" } "plr-1" "ns" "cluster-a" errNotFound
      rfl).trans (by decide),
   (c4_plr_fetch_error
      { emptyEnv with spokeGetPipelineRun := fun _ _ _ => Except.error errForbidden }
      { host := "h" } "plr-1" "ns" "cluster-a" errForbidden rfl).trans (by decide)⟩

/-- C5: a PipelineRun that exists and is done yields an empty secret
name, an absent PipelineRun and no error, whatever its annotations hold
(the done check precedes the annotation read). -/
theorem c5_done_plr {sigma : Type} (env : ReconcilerEnv sigma) (cfg : RestConfig)
    (plrName plrNamespace clusterName : String) (plr : PipelineRun)
    (hok : env.spokeGetPipelineRun cfg plrNamespace plrName = Except.ok plr)
    (hdone : plr.done = true) :
    (validatePLRAndGetSecretName env cfg plrName plrNamespace clusterName).1 =
      ("", none, none) := by
  unfold validatePLRAndGetSecretName
  rw [hok]
  simp [hdone]

/-- A completed PipelineRun that nonetheless carries a git-auth-secret
annotation, for the C5 witness. -/
def donePLR : PipelineRun :=
  { metadata :=
      { emptyMeta with
          name := "plr-1"
          ns := "ns"
          annotations := [(gitAuthSecret, "git-creds")] }
    done := true }

/-- Witness for C5: the annotation names a secret, yet the result is
empty because the run is done. -/
theorem c5_done_plr_witness :
    (validatePLRAndGetSecretName
        { emptyEnv with spokeGetPipelineRun := fun _ _ _ => Except.ok donePLR }
        { host := "h" } "plr-1" "ns" "cluster-a").1 = ("", none, none) :=
  c5_done_plr
    { emptyEnv with spokeGetPipelineRun := fun _ _ _ => Except.ok donePLR }
    { host := "h" } "plr-1" "ns" "cluster-a" donePLR rfl rfl

/-- C6: a Secret-type registration whose credential secret exists but
lacks the kubeconfig data key fails with exactly the message
given in the source, naming the configured hub namespace and the
registration location. -/
theorem c6_missing_kubeconfig_key {sigma : Type} (env : ReconcilerEnv sigma)
    (clusterName : String) (mkCluster : MultiKueueCluster) (sec : Secret)
    (hmk : env.getMKCluster clusterName = Except.ok mkCluster)
    (hloc : mkCluster.spec.kubeConfig.locationType = "Secret")
    (hsec : env.hubGetSecret env.kueueNamespace mkCluster.spec.kubeConfig.location =
      Except.ok sec)
    (hmiss : lookupKV sec.data "kubeconfig" = none) :
    getSpokeClusterConfig env clusterName =
      Except.error
        { kind := ErrKind.other,
          msg := ("kubeconfig secret " ++ env.kueueNamespace ++ "/" ++
            mkCluster.spec.kubeConfig.location ++
            " is missing \x27kubeconfig\x27 data key") } := by
  unfold getSpokeClusterConfig
  rw [hmk]
  simp [hloc, hsec, hmiss]

/-- A registration of Secret location type pointing at the credential
secret kubeconfig-a, for the C6 and C8 fixtures. -/
def mkClusterA : MultiKueueCluster :=
  { name := "cluster-a"
    spec := { kubeConfig := { locationType := "Secret", location := "kubeconfig-a" } } }

/-- A credential secret that lacks the kubeconfig data key. -/
def badKubeconfigSecret : Secret :=
  { metadata := { emptyMeta with name := "kubeconfig-a", ns := "kueue-system" }
    type := "Opaque"
    data := [("wrong-key", [1, 2, 3])] }

/-- Witness for C6 at a concrete registration and credential secret. -/
theorem c6_missing_kubeconfig_key_witness :
    getSpokeClusterConfig
        { emptyEnv with
            getMKCluster := fun n =>
              if n == "cluster-a" then Except.ok mkClusterA else Except.error errNotFound
            hubGetSecret := fun ns n =>
              if ns == "kueue-system" && n == "kubeconfig-a" then Except.ok badKubeconfigSecret
              else Except.error errNotFound }
        "cluster-a" =
      Except.error
        { kind := ErrKind.other,
          msg := "kubeconfig secret kueue-system/kubeconfig-a is missing \x27kubeconfig\x27 data key" } :=
  (c6_missing_kubeconfig_key _ "cluster-a" mkClusterA badKubeconfigSecret rfl rfl rfl
    rfl).trans rfl

/-- C7: a registration whose kubeconfig location type is neither Secret
nor Path fails with exactly the unsupported-location-type message. -/
theorem c7_unsupported_location_type {sigma : Type} (env : ReconcilerEnv sigma)
    (clusterName : String) (mkCluster : MultiKueueCluster)
    (hmk : env.getMKCluster clusterName = Except.ok mkCluster)
    (hns : mkCluster.spec.kubeConfig.locationType ≠ "Secret")
    (hnp : mkCluster.spec.kubeConfig.locationType ≠ "Path") :
    getSpokeClusterConfig env clusterName =
      Except.error
        { kind := ErrKind.other,
          msg := ("unsupported kubeconfig location type: " ++
            mkCluster.spec.kubeConfig.locationType) } := by
  unfold getSpokeClusterConfig
  rw [hmk]
  simp [hns, hnp]

/-- Witness for C7 at a concrete registration of location type URL. -/
theorem c7_unsupported_location_type_witness :
    getSpokeClusterConfig
        { emptyEnv with
            getMKCluster := fun n =>
              if n == "cluster-a"
              then Except.ok
                { name := "cluster-a",
                  spec := { kubeConfig := { locationType := "URL", location := "x" } } }
              else Except.error errNotFound }
        "cluster-a" =
      Except.error
        { kind := ErrKind.other, msg := "unsupported kubeconfig location type: URL" } :=
  (c7_unsupported_location_type _ "cluster-a"
      { name := "cluster-a",
        spec := { kubeConfig := { locationType := "URL", location := "x" } } }
      rfl (by decide) (by decide)).trans rfl

/-- The projected secret keeps the source secret namespace. -/
theorem projected_ns_eq (secret : Secret) (pipelineRun : PipelineRun) :
    (buildProjectedSecret secret pipelineRun).metadata.ns = secret.metadata.ns := by
  unfold buildProjectedSecret
  split <;> rfl

/-- The projected secret keeps the source secret name. -/
theorem projected_name_eq (secret : Secret) (pipelineRun : PipelineRun) :
    (buildProjectedSecret secret pipelineRun).metadata.name = secret.metadata.name := by
  unfold buildProjectedSecret
  split <;> rfl

/-- Shared gate lemma: when any of the four gates of `Reconcile` rejects
the Workload, the function returns nil having touched nothing. -/
theorem reconcile_gate_exit {sigma : Type} (env : ReconcilerEnv sigma)
    (key ns name : String) (workload : Workload) (s : sigma)
    (hkey : splitMetaNamespaceKey key = Except.ok (ns, name))
    (hget : env.getWorkload ns name = Except.ok workload)
    (hgate :
      (∀ ref, getControllerOf workload.metadata = some ref → ref.kind ≠ "PipelineRun") ∨
      workload.spec.active = some false ∨
      workload.status.clusterName = none ∨
      workload.status.clusterName = some "") :
    Reconcile env key s = ((s, none), []) := by
  rcases hgate with hown | hact | hcn | hcn
  case inr.inl =>
    simp [Reconcile, hkey, hget, hact]
  case inr.inr.inl =>
    by_cases ha : workload.spec.active = some false <;>
      simp [Reconcile, hkey, hget, hcn, ha]
  case inr.inr.inr =>
    by_cases ha : workload.spec.active = some false <;>
      simp [Reconcile, hkey, hget, hcn, ha]
  case inl =>
    by_cases ha : workload.spec.active = some false
    · simp [Reconcile, hkey, hget, ha]
    · cases hcn : workload.status.clusterName with
      | none => simp [Reconcile, hkey, hget, ha, hcn]
      | some cn =>
        by_cases hce : cn = ""
        · simp [Reconcile, hkey, hget, ha, hcn, hce]
        · cases hco : getControllerOf workload.metadata with
          | none => simp [Reconcile, hkey, hget, ha, hcn, hce, hco]
          | some ref =>
            have hk : ref.kind ≠ "PipelineRun" := hown ref hco
            simp [Reconcile, hkey, hget, ha, hcn, hce, hco, hk]

/-- C3: when the controlling owner reference is absent or not a
PipelineRun, or the Workload is explicitly inactive, or it has no
non-empty cluster name, Reconcile returns nil without resolving a
cluster config, fetching a PipelineRun or creating a secret. -/
theorem c3_gated_no_op {sigma : Type} (env : ReconcilerEnv sigma)
    (key ns name : String) (workload : Workload) (s : sigma)
    (hkey : splitMetaNamespaceKey key = Except.ok (ns, name))
    (hget : env.getWorkload ns name = Except.ok workload)
    (hgate :
      (∀ ref, getControllerOf workload.metadata = some ref → ref.kind ≠ "PipelineRun") ∨
      workload.spec.active = some false ∨
      workload.status.clusterName = none ∨
      workload.status.clusterName = some "") :
    Reconcile env key s = ((s, none), []) :=
  reconcile_gate_exit env key ns name workload s hkey hget hgate

/-- An explicitly inactive Workload for the C3 witness. -/
def inactiveWorkload : Workload :=
  { metadata := { emptyMeta with name := "wl-1", ns := "ns" }
    spec := { active := some false }
    status := { clusterName := some "cluster-a" } }

/-- Witness for C3 at an explicitly inactive Workload. -/
theorem c3_gated_no_op_witness :
    Reconcile
        { emptyEnv with
            getWorkload := fun ns n =>
              if ns == "ns" && n == "wl-1" then Except.ok inactiveWorkload
              else Except.error errNotFound }
        "ns/wl-1" () = (((), none), []) :=
  c3_gated_no_op
    { emptyEnv with
        getWorkload := fun ns n =>
          if ns == "ns" && n == "wl-1" then Except.ok inactiveWorkload
          else Except.error errNotFound }
    "ns/wl-1" "ns" "wl-1" inactiveWorkload () rfl rfl (Or.inr (Or.inl rfl))

/-- C1: with the Kubernetes create semantics on the spoke store, syncing
the same secret twice succeeds both times and leaves exactly one secret
with the projected identity; and with a spoke create failing with
anything other than already-exists, that error is returned. -/
theorem c1_create_idempotent (env : ReconcilerEnv (List Secret)) (cfg : RestConfig)
    (secretName clusterName : String) (pr : PipelineRun) (sec : Secret)
    (store : List Secret)
    (hget : env.hubGetSecret pr.metadata.ns secretName = Except.ok sec)
    (hcr : env.spokeCreateSecret = fun _ ns s st => storeCreateSecret ns s st)
    (hfresh : store.any (hasIdentity sec.metadata.ns sec.metadata.name) = false) :
    ((createSecretOnSpokeCluster env cfg secretName clusterName pr store).1.2 = none ∧
     (createSecretOnSpokeCluster env cfg secretName clusterName pr
        (createSecretOnSpokeCluster env cfg secretName clusterName pr store).1.1).1.2 =
       none ∧
     (createSecretOnSpokeCluster env cfg secretName clusterName pr
        (createSecretOnSpokeCluster env cfg secretName clusterName pr store).1.1).1.1 =
       store ++ [buildProjectedSecret sec pr] ∧
     List.countP (hasIdentity sec.metadata.ns sec.metadata.name)
        ((createSecretOnSpokeCluster env cfg secretName clusterName pr
          (createSecretOnSpokeCluster env cfg secretName clusterName pr store).1.1).1.1) =
       1) ∧
    (∀ (env2 : ReconcilerEnv Unit) (e : KubeErr),
      env2.hubGetSecret pr.metadata.ns secretName = Except.ok sec →
      env2.spokeCreateSecret = (fun _ _ _ u => (u, some e)) →
      e.isAlreadyExists = false →
      (createSecretOnSpokeCluster env2 cfg secretName clusterName pr ()).1.2 = some e) := by
  have hns := projected_ns_eq sec pr
  have hname := projected_name_eq sec pr
  have hp : hasIdentity (buildProjectedSecret sec pr).metadata.ns
      (buildProjectedSecret sec pr).metadata.name (buildProjectedSecret sec pr) = true := by
    unfold hasIdentity
    simp
  have h1 : createSecretOnSpokeCluster env cfg secretName clusterName pr store =
      ((store ++ [buildProjectedSecret sec pr], none),
       [Effect.fetchHubSecret pr.metadata.ns secretName,
        Effect.createSecret (buildProjectedSecret sec pr).metadata.ns
          (buildProjectedSecret sec pr).metadata.name]) := by
    unfold createSecretOnSpokeCluster
    rw [hget, hcr]
    simp [storeCreateSecret, hns, hname, hfresh]
  have hany : (store ++ [buildProjectedSecret sec pr]).any
      (hasIdentity sec.metadata.ns sec.metadata.name) = true := by
    rw [List.any_append, hfresh]
    simp only [List.any_cons, List.any_nil]
    rw [hns, hname] at hp
    rw [hp]
    rfl
  have h2 : createSecretOnSpokeCluster env cfg secretName clusterName pr
      (store ++ [buildProjectedSecret sec pr]) =
      ((store ++ [buildProjectedSecret sec pr], none),
       [Effect.fetchHubSecret pr.metadata.ns secretName,
        Effect.createSecret (buildProjectedSecret sec pr).metadata.ns
          (buildProjectedSecret sec pr).metadata.name]) := by
    unfold createSecretOnSpokeCluster
    rw [hget, hcr]
    simp [storeCreateSecret, hns, hname, hany, KubeErr.isAlreadyExists]
  have hcount : List.countP (hasIdentity sec.metadata.ns sec.metadata.name)
      (store ++ [buildProjectedSecret sec pr]) = 1 := by
    rw [List.countP_append]
    have hz : List.countP (hasIdentity sec.metadata.ns sec.metadata.name) store = 0 := by
      rw [List.countP_eq_zero]
      intro a ha
      have := (List.any_eq_false).mp hfresh
      exact fun hpa => (this a ha) hpa
    rw [hz]
    rw [hns, hname] at hp
    simp [List.countP_cons, hp]
  refine ⟨⟨?_, ?_, ?_, ?_⟩, ?_⟩
  · rw [h1]
  · rw [h1, h2]
  · rw [h1, h2]
  · rw [h1, h2]
    exact hcount
  · intro env2 e hget2 hcr2 hnae
    unfold createSecretOnSpokeCluster
    rw [hget2, hcr2]
    simp [hnae]

/-- A source secret with one owner reference, for the C1 witness. -/
def gitCredsSecret : Secret :=
  { metadata :=
      { emptyMeta with
          name := "git-creds"
          ns := "ns"
          uid := "git-creds-uid"
          labels := [("app", "pac")]
          annotations := [("note", "hub copy")]
          ownerReferences :=
            [{ apiVersion := "tekton.dev/v1", kind := "PipelineRun", name := "plr-1",
               uid := "hub-plr-uid", controller := some true,
               blockOwnerDeletion := some true }] }
    type := "Opaque"
    data := [("token", [97, 98, 99])] }

/-- The spoke-side PipelineRun for the C1, C8 and C9 fixtures. -/
def spokePLR : PipelineRun :=
  { metadata :=
      { emptyMeta with
          name := "plr-1"
          ns := "ns"
          uid := "spoke-plr-uid"
          annotations := [(gitAuthSecret, "git-creds")] }
    done := false }

/-- A hub environment over the spoke store for the C1 and C8 fixtures. -/
def storeEnv : ReconcilerEnv (List Secret) :=
  { kueueNamespace := "kueue-system"
    getWorkload := fun _ _ => Except.error errNotFound
    getMKCluster := fun _ => Except.error errNotFound
    hubGetSecret := fun ns n =>
      if ns == "ns" && n == "git-creds" then Except.ok gitCredsSecret
      else Except.error errNotFound
    restConfigFromKubeConfig := fun _ => Except.error errNotFound
    buildConfigFromFlags := fun _ => Except.error errNotFound
    newKubeClient := fun _ => none
    newTektonClient := fun _ => none
    spokeGetPipelineRun := fun _ _ _ => Except.error errNotFound
    spokeCreateSecret := fun _ ns s st => storeCreateSecret ns s st }

/-- Witness for C1 at the concrete store environment, starting from an
empty spoke store, plus a concrete non-already-exists create failure. -/
theorem c1_create_idempotent_witness :
    ((createSecretOnSpokeCluster storeEnv { host := "h" } "git-creds" "cluster-a"
        spokePLR []).1.2 = none ∧
     (createSecretOnSpokeCluster storeEnv { host := "h" } "git-creds" "cluster-a" spokePLR
        (createSecretOnSpokeCluster storeEnv { host := "h" } "git-creds" "cluster-a"
          spokePLR []).1.1).1.2 = none ∧
     (createSecretOnSpokeCluster storeEnv { host := "h" } "git-creds" "cluster-a" spokePLR
        (createSecretOnSpokeCluster storeEnv { host := "h" } "git-creds" "cluster-a"
          spokePLR []).1.1).1.1 = [] ++ [buildProjectedSecret gitCredsSecret spokePLR] ∧
     List.countP (hasIdentity gitCredsSecret.metadata.ns gitCredsSecret.metadata.name)
        ((createSecretOnSpokeCluster storeEnv { host := "h" } "git-creds" "cluster-a"
          spokePLR
          (createSecretOnSpokeCluster storeEnv { host := "h" } "git-creds" "cluster-a"
            spokePLR []).1.1).1.1) = 1) ∧
    (∀ (env2 : ReconcilerEnv Unit) (e : KubeErr),
      env2.hubGetSecret spokePLR.metadata.ns "git-creds" = Except.ok gitCredsSecret →
      env2.spokeCreateSecret = (fun _ _ _ u => (u, some e)) →
      e.isAlreadyExists = false →
      (createSecretOnSpokeCluster env2 { host := "h" } "git-creds" "cluster-a"
        spokePLR ()).1.2 = some e) :=
  c1_create_idempotent storeEnv { host := "h" } "git-creds" "cluster-a" spokePLR
    gitCredsSecret [] rfl rfl rfl

/-- The controlling owner reference of the end-to-end Workload. -/
def c8OwnerRef : OwnerReference :=
  { apiVersion := "tekton.dev/v1", kind := "PipelineRun", name := "plr-1",
    uid := "hub-plr-uid", controller := some true, blockOwnerDeletion := some true }

/-- The end-to-end Workload: active, scheduled to cluster-a, controlled
by PipelineRun plr-1. -/
def c8Workload : Workload :=
  { metadata :=
      { emptyMeta with
          name := "wl-1"
          ns := "ns"
          uid := "wl-uid"
          ownerReferences := [c8OwnerRef] }
    spec := { active := some true }
    status := { clusterName := some "cluster-a" } }

/-- A credential secret holding a kubeconfig payload under the expected
data key. -/
def goodKubeconfigSecret : Secret :=
  { metadata := { emptyMeta with name := "kubeconfig-a", ns := "kueue-system" }
    type := "Opaque"
    data := [("kubeconfig", [107])] }

/-- The end-to-end environment over the spoke secret store. -/
def c8Env : ReconcilerEnv (List Secret) :=
  { storeEnv with
      getWorkload := fun ns n =>
        if ns == "ns" && n == "wl-1" then Except.ok c8Workload
        else Except.error errNotFound
      getMKCluster := fun n =>
        if n == "cluster-a" then Except.ok mkClusterA else Except.error errNotFound
      hubGetSecret := fun ns n =>
        if ns == "kueue-system" && n == "kubeconfig-a" then Except.ok goodKubeconfigSecret
        else if ns == "ns" && n == "git-creds" then Except.ok gitCredsSecret
        else Except.error errNotFound
      restConfigFromKubeConfig := fun _ => Except.ok { host := "https://spoke.example.com" }
      spokeGetPipelineRun := fun _ ns n =>
        if ns == "ns" && n == "plr-1" then Except.ok spokePLR
        else Except.error errNotFound }

/-- The secret expected on the spoke cluster after the end-to-end run:
the hub secret ns/git-creds with payload token=abc, its owner reference
UID rewritten to the spoke PipelineRun UID. -/
def c8ProjectedSecret : Secret :=
  { metadata :=
      { name := "git-creds"
        ns := "ns"
        uid := ""
        labels := [("app", "pac")]
        annotations := [("note", "hub copy")]
        ownerReferences :=
          [{ apiVersion := "tekton.dev/v1", kind := "PipelineRun", name := "plr-1",
             uid := "spoke-plr-uid", controller := some true,
             blockOwnerDeletion := some true }] }
    type := "Opaque"
    data := [("token", [97, 98, 99])] }

/-- C8: the end-to-end scenario returns nil and creates on the spoke
cluster exactly the secret ns/git-creds with payload token=abc (bytes
97, 98, 99) whose owner reference UID equals the spoke PipelineRun UID. -/
theorem c8_end_to_end :
    Reconcile c8Env "ns/wl-1" [] =
      (([c8ProjectedSecret], none),
       [Effect.resolveCluster "cluster-a", Effect.fetchPipelineRun "ns" "plr-1",
        Effect.fetchHubSecret "ns" "git-creds", Effect.createSecret "ns" "git-creds"]) ∧
    c8ProjectedSecret.metadata.ns = "ns" ∧
    c8ProjectedSecret.metadata.name = "git-creds" ∧
    c8ProjectedSecret.data = [("token", [97, 98, 99])] ∧
    c8ProjectedSecret.metadata.ownerReferences.map OwnerReference.uid =
      [spokePLR.metadata.uid] :=
  ⟨rfl, rfl, rfl, rfl, rfl⟩

/-- C9: a present, not-done PipelineRun carrying the git-auth-secret
annotation with an empty string value makes the validator return the
empty name with the PipelineRun present and no error, and Reconcile then
returns nil without invoking the secret sync (no hub secret fetch, no
spoke create). -/
theorem c9_empty_annotation {sigma : Type} (env : ReconcilerEnv sigma)
    (key ns name cn : String) (workload : Workload) (ref : OwnerReference)
    (cfg : RestConfig) (plr : PipelineRun) (s : sigma)
    (hkey : splitMetaNamespaceKey key = Except.ok (ns, name))
    (hget : env.getWorkload ns name = Except.ok workload)
    (hact : workload.spec.active ≠ some false)
    (hcn : workload.status.clusterName = some cn)
    (hcne : cn ≠ "")
    (hown : getControllerOf workload.metadata = some ref)
    (hkind : ref.kind = "PipelineRun")
    (hcfg : getSpokeClusterConfig env cn = Except.ok cfg)
    (hkc : env.newKubeClient cfg = none)
    (htc : env.newTektonClient cfg = none)
    (hok : env.spokeGetPipelineRun cfg workload.metadata.ns ref.name = Except.ok plr)
    (hnd : plr.done = false)
    (hann : lookupKV plr.metadata.annotations gitAuthSecret = some "") :
    (validatePLRAndGetSecretName env cfg ref.name workload.metadata.ns cn).1 =
      ("", some plr, none) ∧
    Reconcile env key s =
      ((s, none),
       [Effect.resolveCluster cn, Effect.fetchPipelineRun workload.metadata.ns ref.name]) := by
  have hval : validatePLRAndGetSecretName env cfg ref.name workload.metadata.ns cn =
      (("", some plr, none), [Effect.fetchPipelineRun workload.metadata.ns ref.name]) := by
    unfold validatePLRAndGetSecretName
    rw [hok]
    simp [hnd, hann]
  refine ⟨by rw [hval], ?_⟩
  simp [Reconcile, hkey, hget, hact, hcn, hcne, hown, hkind, hcfg, hkc, htc, hval]

/-- The spoke PipelineRun whose git-auth-secret annotation is present
with an empty string value. -/
def c9PLR : PipelineRun :=
  { metadata :=
      { emptyMeta with
          name := "plr-1"
          ns := "ns"
          uid := "spoke-plr-uid"
          annotations := [(gitAuthSecret, "")] }
    done := false }

/-- A Unit-state environment for the C9 witness. -/
def c9Env : ReconcilerEnv Unit :=
  { emptyEnv with
      getWorkload := fun ns n =>
        if ns == "ns" && n == "wl-1" then Except.ok c8Workload
        else Except.error errNotFound
      getMKCluster := fun n =>
        if n == "cluster-a" then Except.ok mkClusterA else Except.error errNotFound
      hubGetSecret := fun ns n =>
        if ns == "kueue-system" && n == "kubeconfig-a" then Except.ok goodKubeconfigSecret
        else Except.error errNotFound
      restConfigFromKubeConfig := fun _ => Except.ok { host := "https://spoke.example.com" }
      spokeGetPipelineRun := fun _ ns n =>
        if ns == "ns" && n == "plr-1" then Except.ok c9PLR
        else Except.error errNotFound }

/-- Witness for C9 at a concrete environment with an empty-valued
annotation. -/
theorem c9_empty_annotation_witness :
    (validatePLRAndGetSecretName c9Env { host := "https://spoke.example.com" }
        "plr-1" "ns" "cluster-a").1 = ("", some c9PLR, none) ∧
    Reconcile c9Env "ns/wl-1" () =
      (((), none),
       [Effect.resolveCluster "cluster-a", Effect.fetchPipelineRun "ns" "plr-1"]) :=
  c9_empty_annotation c9Env "ns/wl-1" "ns" "wl-1" "cluster-a" c8Workload c8OwnerRef
    { host := "https://spoke.example.com" } c9PLR () rfl rfl (by decide) rfl (by decide)
    rfl rfl rfl rfl rfl rfl rfl rfl

/-- A Workload whose controlling owner reference is a PipelineRun and
which also carries a second, non-controlling PipelineRun owner
reference. -/
def c10Workload : Workload :=
  { metadata :=
      { emptyMeta with
          name := "wl-1"
          ns := "ns"
          ownerReferences :=
            [{ apiVersion := "tekton.dev/v1", kind := "PipelineRun", name := "plr-ctrl",
               uid := "u1", controller := some true, blockOwnerDeletion := none },
             { apiVersion := "tekton.dev/v1", kind := "PipelineRun", name := "plr-extra",
               uid := "u2", controller := none, blockOwnerDeletion := none }] }
    spec := { active := none }
    status := { clusterName := some "cluster-a" } }

/-- Environment for the C10 counterexample: the Workload is found but
cluster resolution fails, so the attempted cross-cluster work surfaces
as an error and a recorded resolve call. -/
def c10Env : ReconcilerEnv Unit :=
  { emptyEnv with
      getWorkload := fun ns n =>
        if ns == "ns" && n == "wl-1" then Except.ok c10Workload
        else Except.error errNotFound }

/-- C10 counterexample: this Workload has an owner reference of kind
PipelineRun that is not the controller reference, yet Reconcile does not
return nil without cross-cluster work — the controlling reference is
also a PipelineRun, so it proceeds to resolve the cluster. -/
theorem c10_counterexample :
    c10Workload.metadata.ownerReferences.any
      (fun r => r.kind == "PipelineRun" && !(r.controller == some true)) = true ∧
    ¬ Reconcile c10Env "ns/wl-1" () = (((), none), []) := by
  exact ⟨rfl, by decide⟩

/-- C10 amended: the owner gate inspects only the controlling owner
reference — for every Workload having an owner reference of kind
PipelineRun that is not the controller reference (hence enqueued by
checkOwnerAndEnqueue), whose controlling reference is moreover absent or
not of kind PipelineRun, Reconcile returns nil without cross-cluster
work. -/
theorem c10_controller_gate_only {sigma : Type} (env : ReconcilerEnv sigma)
    (key ns name : String) (workload : Workload) (s : sigma)
    (hkey : splitMetaNamespaceKey key = Except.ok (ns, name))
    (hget : env.getWorkload ns name = Except.ok workload)
    (hplr : workload.metadata.ownerReferences.any
      (fun r => r.kind == "PipelineRun" && !(r.controller == some true)) = true)
    (hctrl : ∀ ref, getControllerOf workload.metadata = some ref →
      ref.kind ≠ "PipelineRun") :
    checkOwnerAndEnqueue workload.metadata = true ∧
    Reconcile env key s = ((s, none), []) := by
  constructor
  · unfold checkOwnerAndEnqueue
    rw [List.any_eq_true] at hplr ⊢
    obtain ⟨r, hr, hp⟩ := hplr
    simp only [Bool.and_eq_true] at hp
    exact ⟨r, hr, hp.1⟩
  · exact reconcile_gate_exit env key ns name workload s hkey hget (Or.inl hctrl)

/-- A Workload whose single owner reference is a non-controlling
PipelineRun reference. -/
def c10bWorkload : Workload :=
  { metadata :=
      { emptyMeta with
          name := "wl-2"
          ns := "ns"
          ownerReferences :=
            [{ apiVersion := "tekton.dev/v1", kind := "PipelineRun", name := "plr-x",
               uid := "u3", controller := none, blockOwnerDeletion := none }] }
    spec := { active := none }
    status := { clusterName := some "cluster-a" } }

/-- Environment for the C10 amended witness. -/
def c10bEnv : ReconcilerEnv Unit :=
  { emptyEnv with
      getWorkload := fun ns n =>
        if ns == "ns" && n == "wl-2" then Except.ok c10bWorkload
        else Except.error errNotFound }

/-- Witness for the amended C10 at a Workload whose only PipelineRun
owner reference is non-controlling. -/
theorem c10_controller_gate_only_witness :
    checkOwnerAndEnqueue c10bWorkload.metadata = true ∧
    Reconcile c10bEnv "ns/wl-2" () = (((), none), []) :=
  c10_controller_gate_only c10bEnv "ns/wl-2" "ns" "wl-2" c10bWorkload () rfl rfl rfl
    (fun ref h => by
      rw [show getControllerOf c10bWorkload.metadata = none from rfl] at h
      exact Option.noConfusion h)

end SecretSyncer
